import Mathlib

/-!
# mysql-list-table-stats

A shallow embedding of `internal/tools/mysql/mysqllisttablestats/mysqllisttablestats.go`:
the query constant, the tool configuration, the tool built from it, and `Tool.Invoke`
with its effects (the debug log line and the call of the source) made explicit.
-/

set_option autoImplicit false

namespace mysqllisttablestats

/-! ## Go values -/

/-- A value of the Go interface type `any`, by dynamic type. `int` is Go's `int`;
no arithmetic is done on it here, so it is carried as an integer. `foreign` stands
for a value of any other dynamic type (rows, structs, slices, named types). -/
inductive GoAny where
  | nil
  | string (s : String)
  | int (i : Int)
  | bool (b : Bool)
  | int64 (i : Int)
  | foreign (id : Nat)
deriving DecidableEq, Repr

/-- A non-nil value of the Go interface type `error`. `Errorf` is an error built
by `fmt.Errorf` in this package; `foreign` is an error value handed over by a
collaborator (source provider, logger lookup, source). -/
inductive GoError where
  | Errorf (msg : String)
  | foreign (id : Nat) (msg : String)
deriving DecidableEq, Repr

/-- The method `Error()` of an error value, which `%s` formats. -/
def GoError.Error : GoError → String
  | .Errorf msg => msg
  | .foreign _ msg => msg

/-! ## The constants -/

/-- Line 30: `const resourceType string = "mysql-list-table-stats"`. -/
def resourceType : String := "mysql-list-table-stats"

/-- Lines 32-68: the raw string constant `listTableStatsStatement`, one literal
per source line, tabs and the blank after `ORDER BY` included. -/
def listTableStatsStatement : String :=
  "\n" ++
  "\tSELECT\n" ++
  "  t.table_schema AS 'table_schema',\n" ++
  "  t.table_name AS 'table_name',\n" ++
  "  ROUND((t.data_length + t.index_length)/1024/1024,2) AS 'size_MB',\n" ++
  "  t.TABLE_ROWS AS 'row_count',\n" ++
  "  ROUND(ts.total_latency / 1000000000000, 2) AS 'total_latency_secs',\n" ++
  "  ts.rows_fetched AS 'rows_fetched',\n" ++
  "  ts.rows_inserted AS 'rows_inserted',\n" ++
  "  ts.rows_updated AS 'rows_updated',\n" ++
  "  ts.rows_deleted AS 'rows_deleted',\n" ++
  "  ts.io_read_requests as 'io_reads' ,\n" ++
  "  ROUND(ts.io_read_latency / 1000000000000, 2) AS 'io_read_latency',\n" ++
  "  ts.io_write_requests AS 'IO Writes',\n" ++
  "  ROUND(ts.io_write_latency / 1000000000000, 2) AS 'io_write_latency',\n" ++
  "  io_misc_requests AS 'IO Misc',\n" ++
  "  ROUND(ts.io_misc_latency / 1000000000000, 2) AS 'io_misc_latency'\n" ++
  "FROM\n" ++
  "  information_schema.tables AS t\n" ++
  "  INNER JOIN\n" ++
  "  sys.x$schema_table_statistics AS ts\n" ++
  "  ON (t.table_schema = ts.table_schema AND t.table_name = ts.table_name)\n" ++
  "WHERE\n" ++
  "  t.table_schema NOT IN ('sys', 'information_schema', 'mysql', 'performance_schema')\n" ++
  "  AND (COALESCE(?, '') = '' OR t.table_schema = ?)\n" ++
  "  AND (COALESCE(?, '') = '' OR t.table_name = ?)\n" ++
  "ORDER BY \n" ++
  "  CASE\n" ++
  "  \tWHEN ? = 'row_count' THEN row_count\n" ++
  "  \tWHEN ? = 'rows_fetched' THEN rows_fetched\n" ++
  "  \tWHEN ? = 'rows_inserted' THEN rows_inserted\n" ++
  "  \tWHEN ? = 'rows_updated' THEN rows_updated\n" ++
  "  \tWHEN ? = 'rows_deleted' THEN rows_deleted\n" ++
  "  \tELSE total_latency_secs\n" ++
  "  END DESC\n" ++
  "LIMIT ?;\n"

/-! ## Collaborators that are not part of this file -/

/-- A logger as handed out by `util.LoggerFromContext`; its only use here is
`DebugContext`, which is recorded as an event. -/
structure Logger where
  id : Nat
deriving DecidableEq, Repr

/-- A `context.Context`, as far as `Tool.Invoke` looks at it: the outcome of
`util.LoggerFromContext(ctx)` (line 159), taken as given. -/
structure Context where
  LoggerFromContext : Except GoError Logger

/-- Lines 84-87: the interface `compatibleSource`. `RunSQL` runs against a
database, so it reads and changes a world state `σ`; `MySQLPool` is declared by
the interface and never called in this file. -/
structure compatibleSource (σ : Type) where
  RunSQL : Context → String → List GoAny → σ → (GoAny × Option GoError) × σ

/-- A `tools.SourceProvider`, as far as `Tool.Invoke` looks at it: the outcome of
`tools.GetCompatibleSource[compatibleSource]` for a source name, tool name and
tool type (line 134), taken as given. -/
structure SourceProvider (σ : Type) where
  GetCompatibleSource : String → String → String → Except GoError (compatibleSource σ)

/-- A `tools.AccessToken`; `Tool.Invoke` never reads it. -/
structure AccessToken where
  token : String
deriving DecidableEq, Repr

/-! ## Parameters -/

/-- A parameter descriptor, written as the constructor call that builds it in
`Config.Initialize`: name, default value, description. -/
inductive Parameter where
  | NewStringParameterWithDefault (name : String) (defaultV : String) (desc : String)
  | NewIntParameterWithDefault (name : String) (defaultV : Int) (desc : String)
deriving DecidableEq, Repr

/-- The type `parameters.Parameters`: descriptors in declaration order. -/
abbrev Parameters := List Parameter

/-- The name a descriptor was built with. -/
def Parameter.name : Parameter → String
  | .NewStringParameterWithDefault name _ _ => name
  | .NewIntParameterWithDefault name _ _ => name

/-- The default a descriptor was built with, as a Go value. -/
def Parameter.defaultValue : Parameter → GoAny
  | .NewStringParameterWithDefault _ d _ => .string d
  | .NewIntParameterWithDefault _ d _ => .int d

/-- Whether a descriptor was built by the string constructor. -/
def Parameter.isString : Parameter → Bool
  | .NewStringParameterWithDefault _ _ _ => true
  | .NewIntParameterWithDefault _ _ _ => false

/-- Whether a descriptor was built by the integer constructor. -/
def Parameter.isInt : Parameter → Bool
  | .NewStringParameterWithDefault _ _ _ => false
  | .NewIntParameterWithDefault _ _ _ => true

/-- A Go `map[string]any`, as its entries; of two entries under one key the first
is the one the map holds. -/
abbrev GoMap := List (String × GoAny)

/-- Indexing a Go map, `m[key]`: the value held under the key, and the zero value
of `any`, nil, when the key is absent. -/
def GoMap.index (m : GoMap) (key : String) : GoAny :=
  (m.lookup key).getD GoAny.nil

/-- A `parameters.ParamValues`, as far as `Tool.Invoke` looks at it: the map that
`params.AsMap()` returns (line 139), taken as given. -/
structure ParamValues where
  AsMap : GoMap
deriving DecidableEq, Repr

/-! ## Config and Tool -/

/-- Lines 89-95: `Config`. The field `Type` is spelled `Type_`. -/
structure Config where
  Name : String
  Type_ : String
  Source : String
  Description : String
  AuthRequired : List String
deriving DecidableEq, Repr

/-- Lines 100-102. -/
def Config.ToolConfigType (_cfg : Config) : String := resourceType

/-- The parts of packages `tools` and `parameters` that `Config.Initialize` calls
and that are not in the source, taken as given: the two manifest types and the
functions `tools.GetMcpManifest` and `Parameters.Manifest`. The fifth argument of
`GetMcpManifest` is nil at its only call and is left out. -/
structure ToolsPkg where
  McpManifest : Type
  ParameterManifest : Type
  GetMcpManifest : String → String → List String → Parameters → McpManifest
  ParametersManifest : Parameters → List ParameterManifest

/-- The struct `tools.Manifest` with the three fields line 117 sets. -/
structure Manifest (E : ToolsPkg) where
  Description : String
  Parameters : List E.ParameterManifest
  AuthRequired : List String

/-- Lines 126-131: `Tool`, which embeds `Config`. -/
structure Tool (E : ToolsPkg) extends Config where
  allParams : Parameters
  manifest : Manifest E
  mcpManifest : E.McpManifest

/-- Lines 105-110: the parameter list built by `Config.Initialize`. -/
def allParameters : Parameters :=
  [ Parameter.NewStringParameterWithDefault "table_schema" ""
      "(Optional) The database where statistics  is to be executed. Check all tables visible to the current user if not specified",
    Parameter.NewStringParameterWithDefault "table_name" ""
      "(Optional) Name of the table to be checked. Check all tables visible to the current user if not specified.",
    Parameter.NewStringParameterWithDefault "sort_by" "" "(Optional) The column to sort by",
    Parameter.NewIntParameterWithDefault "limit" 10 "(Optional) Max rows to return, default is 10" ]

/-- Lines 104-121: `Config.Initialize`. The source map is not read. -/
def Config.Initialize (E : ToolsPkg) {S : Type} (cfg : Config) (_srcs : List (String × S)) :
    Except GoError (Tool E) :=
  let mcpManifest := E.GetMcpManifest cfg.Name cfg.Description cfg.AuthRequired allParameters
  let t : Tool E :=
    { toConfig := cfg
      allParams := allParameters
      manifest :=
        { Description := cfg.Description
          Parameters := E.ParametersManifest allParameters
          AuthRequired := cfg.AuthRequired }
      mcpManifest := mcpManifest }
  .ok t

/-- Lines 172-174. -/
def Tool.Manifest {E : ToolsPkg} (t : Tool E) : Manifest E := t.manifest

/-- Lines 176-178. -/
def Tool.McpManifest {E : ToolsPkg} (t : Tool E) : E.McpManifest := t.mcpManifest

/-- Lines 196-198. -/
def Tool.GetParameters {E : ToolsPkg} (t : Tool E) : Parameters := t.allParams

/-- Lines 188-190. -/
def Tool.ToConfig {E : ToolsPkg} (t : Tool E) : Config := t.toConfig

/-- Modelled from the spec: `tools.IsAuthorized` is not in the source. Section 4.3:
"true iff the tool declares no authRequired set, OR the intersection of
authRequired and verifiedAuthServices is non-empty". -/
def IsAuthorized (authRequired verifiedAuthServices : List String) : Bool :=
  authRequired.isEmpty || authRequired.any (fun a => verifiedAuthServices.contains a)

/-- Lines 180-182. -/
def Tool.Authorized {E : ToolsPkg} (t : Tool E) (verifiedAuthServices : List String) : Bool :=
  IsAuthorized t.AuthRequired verifiedAuthServices

/-! ## Invoke -/

/-- What `Tool.Invoke` does to the outside, in order. -/
inductive Event where
  | DebugContext (logger : Logger) (msg : String)
  | RunSQL (statement : String) (args : List GoAny)
deriving DecidableEq, Repr

/-- The outcome of one call of `Tool.Invoke`: the returned pair, the events in
the order they happened, and the world state left behind. -/
structure Outcome (σ : Type) where
  result : GoAny
  err : Option GoError
  events : List Event
  world : σ

/-- Line 164: the bound arguments. -/
def sliceParams (table_schema table_name sort_by : String) (limit : Int) : List GoAny :=
  [.string table_schema, .string table_schema, .string table_name, .string table_name,
   .string sort_by, .string sort_by, .string sort_by, .string sort_by, .string sort_by,
   .int limit]

/-- Line 163: the text of the debug line,
`fmt.Sprintf` of resourceType and the statement. -/
def debugMessage : String :=
  "executing `" ++ resourceType ++ "` tool query: " ++ listTableStatsStatement

/-- Lines 133-166: `Tool.Invoke`. A type assertion `m[k].(string)` succeeds exactly
on a value of dynamic type string, `.(int)` exactly on one of dynamic type int. -/
def Tool.Invoke {E : ToolsPkg} {σ : Type} (t : Tool E) (ctx : Context)
    (resourceMgr : SourceProvider σ) (params : ParamValues) (_accessToken : AccessToken)
    (w : σ) : Outcome σ :=
  match resourceMgr.GetCompatibleSource t.Source t.Name t.Type_ with
  | .error err => ⟨.nil, some err, [], w⟩
  | .ok source =>
    let paramsMap := params.AsMap
    match paramsMap.index "table_schema" with
    | .string table_schema =>
      match paramsMap.index "table_name" with
      | .string table_name =>
        match paramsMap.index "sort_by" with
        | .string sort_by =>
          match paramsMap.index "limit" with
          | .int limit =>
            match ctx.LoggerFromContext with
            | .error err =>
              ⟨.nil, some (.Errorf ("error getting logger: " ++ err.Error)), [], w⟩
            | .ok logger =>
              let sliceParams := sliceParams table_schema table_name sort_by limit
              let r := source.RunSQL ctx listTableStatsStatement sliceParams w
              ⟨r.1.1, r.1.2,
                [.DebugContext logger debugMessage, .RunSQL listTableStatsStatement sliceParams],
                r.2⟩
          | _ => ⟨.nil, some (.Errorf "invalid 'limit' parameter; expected an integer"), [], w⟩
        | _ => ⟨.nil, some (.Errorf "invalid 'sort_by' parameter; expected a string"), [], w⟩
      | _ => ⟨.nil, some (.Errorf "invalid 'table_name' parameter; expected a string"), [], w⟩
    | _ => ⟨.nil, some (.Errorf "invalid 'table_schema' parameter; expected a string"), [], w⟩

/-! ## Reading the statement -/

/-- Cuts the characters of a statement at every positional placeholder `?`:
`n` placeholders give `n + 1` pieces of text, none of which holds a `?`. -/
def splitPlaceholders : List Char → List (List Char)
  | [] => [[]]
  | c :: cs =>
    match splitPlaceholders cs with
    | [] => [[]]
    | seg :: rest => if c = '?' then [] :: seg :: rest else (c :: seg) :: rest

/-- The number of positional placeholders of a statement. -/
def countPlaceholders (stmt : String) : Nat :=
  stmt.data.count '?'

/-- Positional binding: the i-th placeholder of the statement takes the i-th bound
argument. Pairs every argument with the text that stands in front of its
placeholder and returns the text after the last one; `none` when the number of
arguments is not the number of placeholders. -/
def bindPositional (stmt : String) (args : List GoAny) :
    Option (List (String × GoAny) × String) :=
  let segs := (splitPlaceholders stmt.data).map String.mk
  if segs.length = args.length + 1 then
    some ((segs.take args.length).zip args, segs.getLastD "")
  else none

/-- Lines 59-66: the `CASE` of the `ORDER BY`, as the column it selects. `p5` to
`p9` are the values bound to its five placeholders, one per `WHEN`, tried in
order; the `ELSE` branch is `total_latency_secs`. The comparison `? = 'key'` is
made by the database server under the collation of the connection, which this
file does not fix: it is the argument `sqlEq`, bound value first, literal
second. -/
def orderByCase (sqlEq : String → String → Bool) (p5 p6 p7 p8 p9 : String) : String :=
  if sqlEq p5 "row_count" then "row_count"
  else if sqlEq p6 "rows_fetched" then "rows_fetched"
  else if sqlEq p7 "rows_inserted" then "rows_inserted"
  else if sqlEq p8 "rows_updated" then "rows_updated"
  else if sqlEq p9 "rows_deleted" then "rows_deleted"
  else "total_latency_secs"

/-- The ordering column of a call of the statement with ten bound arguments, of
which the fifth to the ninth feed the `CASE`, under the server comparison
`sqlEq`. -/
def orderingOfCall (sqlEq : String → String → Bool) : List GoAny → Option String
  | [_, _, _, _, .string p5, .string p6, .string p7, .string p8, .string p9, _] =>
    some (orderByCase sqlEq p5 p6 p7 p8 p9)
  | _ => none

/-- The comparison of a binary collation: two strings are equal when they are the
same string. -/
def binaryEq (a b : String) : Bool := a == b

/-- A comparison that takes no account of the case of ASCII letters, the way the
case-insensitive collations a MySQL connection has by default compare them. -/
def caseInsensitiveEq (a b : String) : Bool :=
  a.data.map Char.toLower == b.data.map Char.toLower

/-- The sort keys the `CASE` names. -/
def permittedSortKeys : List String :=
  ["row_count", "rows_fetched", "rows_inserted", "rows_updated", "rows_deleted"]

/-- The text of the statement in front of its first placeholder: lines 32-55 and
the opening of the first filter of line 56. -/
def statementHead : String :=
  "\n" ++
  "\tSELECT\n" ++
  "  t.table_schema AS 'table_schema',\n" ++
  "  t.table_name AS 'table_name',\n" ++
  "  ROUND((t.data_length + t.index_length)/1024/1024,2) AS 'size_MB',\n" ++
  "  t.TABLE_ROWS AS 'row_count',\n" ++
  "  ROUND(ts.total_latency / 1000000000000, 2) AS 'total_latency_secs',\n" ++
  "  ts.rows_fetched AS 'rows_fetched',\n" ++
  "  ts.rows_inserted AS 'rows_inserted',\n" ++
  "  ts.rows_updated AS 'rows_updated',\n" ++
  "  ts.rows_deleted AS 'rows_deleted',\n" ++
  "  ts.io_read_requests as 'io_reads' ,\n" ++
  "  ROUND(ts.io_read_latency / 1000000000000, 2) AS 'io_read_latency',\n" ++
  "  ts.io_write_requests AS 'IO Writes',\n" ++
  "  ROUND(ts.io_write_latency / 1000000000000, 2) AS 'io_write_latency',\n" ++
  "  io_misc_requests AS 'IO Misc',\n" ++
  "  ROUND(ts.io_misc_latency / 1000000000000, 2) AS 'io_misc_latency'\n" ++
  "FROM\n" ++
  "  information_schema.tables AS t\n" ++
  "  INNER JOIN\n" ++
  "  sys.x$schema_table_statistics AS ts\n" ++
  "  ON (t.table_schema = ts.table_schema AND t.table_name = ts.table_name)\n" ++
  "WHERE\n" ++
  "  t.table_schema NOT IN ('sys', 'information_schema', 'mysql', 'performance_schema')\n" ++
  "  AND (COALESCE("

/-- The pieces of text of the statement around its placeholders. -/
def statementSegments : List String :=
  [ statementHead,
    ", '') = '' OR t.table_schema = ",
    ")\n  AND (COALESCE(",
    ", '') = '' OR t.table_name = ",
    ")\nORDER BY \n  CASE\n  \tWHEN ",
    " = 'row_count' THEN row_count\n  \tWHEN ",
    " = 'rows_fetched' THEN rows_fetched\n  \tWHEN ",
    " = 'rows_inserted' THEN rows_inserted\n  \tWHEN ",
    " = 'rows_updated' THEN rows_updated\n  \tWHEN ",
    " = 'rows_deleted' THEN rows_deleted\n  \tELSE total_latency_secs\n  END DESC\nLIMIT ",
    ";\n" ]

/-- Whether an event is a call of the source. -/
def Event.isRunSQL : Event → Bool
  | .RunSQL _ _ => true
  | .DebugContext _ _ => false

/-! ## Validation, as the specification words it -/

/-- Whether a key is present in the map with a value of the type asked of it: an
int for `limit`, a string for the other names. -/
def wellTyped (m : GoMap) (name : String) : Bool :=
  match m.lookup name with
  | some (.string _) => name != "limit"
  | some (.int _) => name == "limit"
  | _ => false

/-- The first parameter, in the order table_schema, table_name, sort_by, limit,
that is absent or of the wrong type. -/
def firstOffending (m : GoMap) : Option String :=
  ["table_schema", "table_name", "sort_by", "limit"].find? (fun name => !wellTyped m name)

/-- The error a parameter of the wrong type is reported with. -/
def validationError (name : String) : GoError :=
  .Errorf ("invalid '" ++ name ++ "' parameter; expected " ++
    (if name = "limit" then "an integer" else "a string"))

/-! ## Example values -/

/-- A stand-in for the absent manifest code: the MCP manifest keeps the name, the
description, the auth list and the parameter names; a parameter manifest is the
parameter's name. -/
def examplePkg : ToolsPkg where
  McpManifest := String × String × List String × List String
  ParameterManifest := String
  GetMcpManifest := fun name desc auth ps => (name, desc, auth, ps.map Parameter.name)
  ParametersManifest := fun ps => ps.map Parameter.name

/-- A configuration that asks for one auth service. -/
def exampleConfig : Config where
  Name := "table_stats"
  Type_ := "mysql-list-table-stats"
  Source := "my-mysql"
  Description := "table statistics"
  AuthRequired := ["oauth"]

/-- The tool `Config.Initialize` builds from `exampleConfig`. -/
def exampleTool : Tool examplePkg where
  toConfig := exampleConfig
  allParams := allParameters
  manifest :=
    { Description := "table statistics"
      Parameters := ["table_schema", "table_name", "sort_by", "limit"]
      AuthRequired := ["oauth"] }
  mcpManifest :=
    ("table_stats", "table statistics", ["oauth"],
      ["table_schema", "table_name", "sort_by", "limit"])

/-- A source over a world that is the log of the calls it received: `RunSQL`
appends its statement and arguments and answers with a row set and no error. -/
def recordingSource : compatibleSource (List (String × List GoAny)) where
  RunSQL := fun _ stmt args w => ((GoAny.foreign 1, none), w ++ [(stmt, args)])

/-- A source whose `RunSQL` fails with an error of its own. -/
def failingSource : compatibleSource (List (String × List GoAny)) where
  RunSQL := fun _ stmt args w =>
    ((GoAny.nil, some (GoError.foreign 1064 "syntax error")), w ++ [(stmt, args)])

/-- A provider that resolves every source name to `recordingSource`. -/
def recordingProvider : SourceProvider (List (String × List GoAny)) where
  GetCompatibleSource := fun _ _ _ => .ok recordingSource

/-- A provider that resolves every source name to `failingSource`. -/
def failingProvider : SourceProvider (List (String × List GoAny)) where
  GetCompatibleSource := fun _ _ _ => .ok failingSource

/-- A provider that knows no source at all. -/
def emptyProvider : SourceProvider (List (String × List GoAny)) where
  GetCompatibleSource := fun sourceName _ _ =>
    .error (GoError.foreign 404 ("unable to retrieve source " ++ sourceName))

/-- A context that carries a logger. -/
def loggingContext : Context where
  LoggerFromContext := .ok ⟨0⟩

/-- A context without a logger. -/
def bareContext : Context where
  LoggerFromContext := .error (GoError.foreign 1 "unable to retrieve logger")

/-- The parameters of the scenario of the specification: empty filters, sort key
`row_count`, limit 5. -/
def scenarioParams : ParamValues :=
  ⟨[("table_schema", .string ""), ("table_name", .string ""),
   ("sort_by", .string "row_count"), ("limit", .int 5)]⟩

/-- Parameters whose limit is a string. -/
def stringLimitParams : ParamValues :=
  ⟨[("table_schema", .string ""), ("table_name", .string ""),
   ("sort_by", .string "row_count"), ("limit", .string "5")]⟩

/-- Parameters that differ from the scenario in every value. -/
def otherParams : ParamValues :=
  ⟨[("table_schema", .string "shop"), ("table_name", .string "orders"),
   ("sort_by", .string "x' OR 1=1 --"), ("limit", .int 100)]⟩

/-- Parameters with a sort key the statement does not name. -/
def unknownSortParams : ParamValues :=
  ⟨[("table_schema", .string "shop"), ("table_name", .string ""),
   ("sort_by", .string "size_MB"), ("limit", .int 10)]⟩

/-- Parameters whose sort key is a permitted key in upper case. -/
def upperCaseSortParams : ParamValues :=
  ⟨[("table_schema", .string ""), ("table_name", .string ""),
   ("sort_by", .string "ROW_COUNT"), ("limit", .int 10)]⟩

/-- Parameters that leave table_name and sort_by out. -/
def partialParams : ParamValues :=
  ⟨[("table_schema", .string "shop"), ("limit", .int 3)]⟩

/-- An access token. -/
def noToken : AccessToken := ⟨""⟩

/-! ## Lemmas on the statement and on Invoke -/

theorem countPlaceholders_statement : countPlaceholders listTableStatsStatement = 10 := by
  decide!

theorem splitPlaceholders_statement :
    (splitPlaceholders listTableStatsStatement.data).map String.mk = statementSegments := by
  decide!

theorem statementHead_ends_with_guard :
    "\n  AND (COALESCE(".data <:+ statementHead.data := by
  decide!

/-- When the source does not resolve, Invoke returns the provider's error and
does nothing else. -/
theorem Invoke_source_error {E : ToolsPkg} {σ : Type} (t : Tool E) (ctx : Context)
    (resourceMgr : SourceProvider σ) (params : ParamValues) (tok : AccessToken) (w : σ)
    (e : GoError)
    (hsrc : resourceMgr.GetCompatibleSource t.Source t.Name t.Type_ = .error e) :
    t.Invoke ctx resourceMgr params tok w = ⟨.nil, some e, [], w⟩ := by
  simp only [Tool.Invoke, hsrc]

/-- When the source resolves, the four parameters are well-typed and the context
carries a logger, Invoke logs one line, calls RunSQL and hands its answer back. -/
theorem Invoke_reaches_RunSQL {E : ToolsPkg} {σ : Type} (t : Tool E) (ctx : Context)
    (resourceMgr : SourceProvider σ) (params : ParamValues) (tok : AccessToken) (w : σ)
    (source : compatibleSource σ) (logger : Logger) (s n k : String) (l : Int)
    (hsrc : resourceMgr.GetCompatibleSource t.Source t.Name t.Type_ = .ok source)
    (hs : params.AsMap.index "table_schema" = .string s)
    (hn : params.AsMap.index "table_name" = .string n)
    (hk : params.AsMap.index "sort_by" = .string k)
    (hl : params.AsMap.index "limit" = .int l)
    (hlog : ctx.LoggerFromContext = .ok logger) :
    t.Invoke ctx resourceMgr params tok w =
      ⟨(source.RunSQL ctx listTableStatsStatement (sliceParams s n k l) w).1.1,
       (source.RunSQL ctx listTableStatsStatement (sliceParams s n k l) w).1.2,
       [.DebugContext logger debugMessage,
        .RunSQL listTableStatsStatement (sliceParams s n k l)],
       (source.RunSQL ctx listTableStatsStatement (sliceParams s n k l) w).2⟩ := by
  simp only [Tool.Invoke, hsrc, hs, hn, hk, hl, hlog]

/-- Every RunSQL event of Invoke carries the constant statement and ten
arguments. -/
theorem Invoke_RunSQL_event {E : ToolsPkg} {σ : Type} (t : Tool E) (ctx : Context)
    (resourceMgr : SourceProvider σ) (params : ParamValues) (tok : AccessToken) (w : σ)
    (stmt : String) (args : List GoAny)
    (h : Event.RunSQL stmt args ∈ (t.Invoke ctx resourceMgr params tok w).events) :
    stmt = listTableStatsStatement ∧ args.length = 10 := by
  unfold Tool.Invoke at h
  cases hsrc : resourceMgr.GetCompatibleSource t.Source t.Name t.Type_ with
  | error e => simp [hsrc] at h
  | ok source =>
    simp only [hsrc] at h
    cases hs : params.AsMap.index "table_schema" <;> simp only [hs] at h <;>
      try (simp at h)
    cases hn : params.AsMap.index "table_name" <;> simp only [hn] at h <;>
      try (simp at h)
    cases hk : params.AsMap.index "sort_by" <;> simp only [hk] at h <;>
      try (simp at h)
    cases hl : params.AsMap.index "limit" <;> simp only [hl] at h <;>
      try (simp at h)
    cases hlog : ctx.LoggerFromContext with
    | error e => simp [hlog] at h
    | ok logger =>
      simp [hlog] at h
      obtain ⟨h1, h2⟩ := h
      subst h1 h2
      exact ⟨rfl, rfl⟩

/-! ## The bound arguments and the call of the source -/

/-- C1: when the map of the parameters holds table_schema = s, table_name = n,
sort_by = k (strings) and limit = l (an int), the source resolves and the context
carries a logger, Invoke calls RunSQL exactly once, with the constant statement
and the ten bound arguments s, s, n, n, k, k, k, k, k, l in that order, and the
world it leaves is the one that single call leaves. -/
theorem Invoke_calls_RunSQL_once_with_bound_arguments {E : ToolsPkg} {σ : Type}
    (t : Tool E) (ctx : Context) (resourceMgr : SourceProvider σ) (params : ParamValues)
    (tok : AccessToken) (w : σ) (source : compatibleSource σ) (logger : Logger)
    (s n k : String) (l : Int)
    (hsrc : resourceMgr.GetCompatibleSource t.Source t.Name t.Type_ = .ok source)
    (hs : params.AsMap.index "table_schema" = .string s)
    (hn : params.AsMap.index "table_name" = .string n)
    (hk : params.AsMap.index "sort_by" = .string k)
    (hl : params.AsMap.index "limit" = .int l)
    (hlog : ctx.LoggerFromContext = .ok logger) :
    (t.Invoke ctx resourceMgr params tok w).events.filter Event.isRunSQL =
        [.RunSQL listTableStatsStatement
          [.string s, .string s, .string n, .string n,
           .string k, .string k, .string k, .string k, .string k, .int l]]
      ∧ (t.Invoke ctx resourceMgr params tok w).world =
        (source.RunSQL ctx listTableStatsStatement
          [.string s, .string s, .string n, .string n,
           .string k, .string k, .string k, .string k, .string k, .int l] w).2 := by
  rw [Invoke_reaches_RunSQL t ctx resourceMgr params tok w source logger s n k l
    hsrc hs hn hk hl hlog]
  exact ⟨rfl, rfl⟩

/-- C1 at the scenario of the specification: empty filters, sort key `row_count`,
limit 5, against the recording source, whose world then holds the one call. -/
theorem Invoke_calls_RunSQL_once_witness :
    (exampleTool.Invoke loggingContext recordingProvider scenarioParams noToken
        []).events.filter Event.isRunSQL =
        [.RunSQL listTableStatsStatement
          [.string "", .string "", .string "", .string "", .string "row_count",
           .string "row_count", .string "row_count", .string "row_count",
           .string "row_count", .int 5]]
      ∧ (exampleTool.Invoke loggingContext recordingProvider scenarioParams noToken []).world =
        [(listTableStatsStatement,
          [.string "", .string "", .string "", .string "", .string "row_count",
           .string "row_count", .string "row_count", .string "row_count",
           .string "row_count", .int 5])] :=
  Invoke_calls_RunSQL_once_with_bound_arguments exampleTool loggingContext recordingProvider
    scenarioParams noToken [] recordingSource ⟨0⟩ "" "" "row_count" 5
    rfl (by decide) (by decide) (by decide) (by decide) rfl

/-- C2: the statement handed to RunSQL is the constant `listTableStatsStatement`
whatever the parameters are: any two calls of the source made by any two
invocations carry the same statement text, and what the caller supplied is found
in the argument lists only. -/
theorem statement_independent_of_parameters {E : ToolsPkg} {σ : Type}
    (t₁ t₂ : Tool E) (ctx₁ ctx₂ : Context) (mgr₁ mgr₂ : SourceProvider σ)
    (params₁ params₂ : ParamValues) (tok₁ tok₂ : AccessToken) (w₁ w₂ : σ)
    (stmt₁ stmt₂ : String) (args₁ args₂ : List GoAny)
    (h₁ : Event.RunSQL stmt₁ args₁ ∈ (t₁.Invoke ctx₁ mgr₁ params₁ tok₁ w₁).events)
    (h₂ : Event.RunSQL stmt₂ args₂ ∈ (t₂.Invoke ctx₂ mgr₂ params₂ tok₂ w₂).events) :
    stmt₁ = listTableStatsStatement ∧ stmt₂ = listTableStatsStatement ∧ stmt₁ = stmt₂ := by
  have e₁ := (Invoke_RunSQL_event t₁ ctx₁ mgr₁ params₁ tok₁ w₁ stmt₁ args₁ h₁).1
  have e₂ := (Invoke_RunSQL_event t₂ ctx₂ mgr₂ params₂ tok₂ w₂ stmt₂ args₂ h₂).1
  exact ⟨e₁, e₂, e₁.trans e₂.symm⟩

/-- C2 at two invocations whose parameters differ in every value, one of them with
SQL text as its sort key: both calls carry the same statement. -/
theorem statement_independent_of_parameters_witness :
    Event.RunSQL listTableStatsStatement (sliceParams "" "" "row_count" 5) ∈
        (exampleTool.Invoke loggingContext recordingProvider scenarioParams noToken []).events
      ∧ Event.RunSQL listTableStatsStatement (sliceParams "shop" "orders" "x' OR 1=1 --" 100) ∈
        (exampleTool.Invoke loggingContext failingProvider otherParams noToken []).events
      ∧ listTableStatsStatement = listTableStatsStatement
      ∧ listTableStatsStatement = listTableStatsStatement
      ∧ listTableStatsStatement = listTableStatsStatement :=
  ⟨List.mem_cons_of_mem _ (List.mem_cons_self _ _),
   List.mem_cons_of_mem _ (List.mem_cons_self _ _),
   statement_independent_of_parameters exampleTool exampleTool loggingContext loggingContext
    recordingProvider failingProvider scenarioParams otherParams noToken noToken [] []
    listTableStatsStatement listTableStatsStatement
    (sliceParams "" "" "row_count" 5) (sliceParams "shop" "orders" "x' OR 1=1 --" 100)
    (List.mem_cons_of_mem _ (List.mem_cons_self _ _))
    (List.mem_cons_of_mem _ (List.mem_cons_self _ _))⟩

/-- C6: once Invoke reaches RunSQL (source resolved, four well-typed parameters,
logger present), whatever pair of result and error RunSQL returns is the pair
Invoke returns, unchanged, the world is the one RunSQL left, and RunSQL was called
once: nothing is wrapped, replaced, dropped or tried again. -/
theorem Invoke_returns_RunSQL_pair_verbatim {E : ToolsPkg} {σ : Type}
    (t : Tool E) (ctx : Context) (resourceMgr : SourceProvider σ) (params : ParamValues)
    (tok : AccessToken) (w : σ) (source : compatibleSource σ) (logger : Logger)
    (s n k : String) (l : Int) (res : GoAny) (e : Option GoError) (w' : σ)
    (hsrc : resourceMgr.GetCompatibleSource t.Source t.Name t.Type_ = .ok source)
    (hs : params.AsMap.index "table_schema" = .string s)
    (hn : params.AsMap.index "table_name" = .string n)
    (hk : params.AsMap.index "sort_by" = .string k)
    (hl : params.AsMap.index "limit" = .int l)
    (hlog : ctx.LoggerFromContext = .ok logger)
    (hrun : source.RunSQL ctx listTableStatsStatement (sliceParams s n k l) w = ((res, e), w')) :
    (t.Invoke ctx resourceMgr params tok w).result = res
      ∧ (t.Invoke ctx resourceMgr params tok w).err = e
      ∧ (t.Invoke ctx resourceMgr params tok w).world = w'
      ∧ ((t.Invoke ctx resourceMgr params tok w).events.filter Event.isRunSQL).length = 1 := by
  rw [Invoke_reaches_RunSQL t ctx resourceMgr params tok w source logger s n k l
    hsrc hs hn hk hl hlog, hrun]
  exact ⟨rfl, rfl, rfl, rfl⟩

/-- C6 at a source that fails: its error comes back as it is, with its nil
result, after a single call. -/
theorem Invoke_returns_RunSQL_pair_verbatim_witness :
    (exampleTool.Invoke loggingContext failingProvider otherParams noToken []).result = .nil
      ∧ (exampleTool.Invoke loggingContext failingProvider otherParams noToken []).err =
        some (.foreign 1064 "syntax error")
      ∧ (exampleTool.Invoke loggingContext failingProvider otherParams noToken []).world =
        [(listTableStatsStatement, sliceParams "shop" "orders" "x' OR 1=1 --" 100)]
      ∧ ((exampleTool.Invoke loggingContext failingProvider otherParams noToken
          []).events.filter Event.isRunSQL).length = 1 :=
  Invoke_returns_RunSQL_pair_verbatim exampleTool loggingContext failingProvider otherParams
    noToken [] failingSource ⟨0⟩ "shop" "orders" "x' OR 1=1 --" 100 .nil
    (some (.foreign 1064 "syntax error"))
    [(listTableStatsStatement, sliceParams "shop" "orders" "x' OR 1=1 --" 100)]
    rfl (by decide) (by decide) (by decide) (by decide) rfl rfl

/-- C9: the statement has as many placeholders as Invoke binds arguments, ten, and
binding by position pairs them as follows: the first two placeholders, the
COALESCE guard and the comparison of the table_schema filter, take the schema
value; the third and fourth, guard and comparison of the table_name filter, take
the name value; the fifth to ninth, the five WHEN branches of the CASE, take the
sort key; the tenth, after LIMIT, takes the limit. -/
theorem placeholders_line_up_with_bound_arguments (table_schema table_name sort_by : String)
    (limit : Int) :
    countPlaceholders listTableStatsStatement =
        (sliceParams table_schema table_name sort_by limit).length
      ∧ (sliceParams table_schema table_name sort_by limit).length = 10
      ∧ "\n  AND (COALESCE(".data <:+ statementHead.data
      ∧ bindPositional listTableStatsStatement
          (sliceParams table_schema table_name sort_by limit) =
        some
          ([ (statementHead, .string table_schema),
             (", '') = '' OR t.table_schema = ", .string table_schema),
             (")\n  AND (COALESCE(", .string table_name),
             (", '') = '' OR t.table_name = ", .string table_name),
             (")\nORDER BY \n  CASE\n  \tWHEN ", .string sort_by),
             (" = 'row_count' THEN row_count\n  \tWHEN ", .string sort_by),
             (" = 'rows_fetched' THEN rows_fetched\n  \tWHEN ", .string sort_by),
             (" = 'rows_inserted' THEN rows_inserted\n  \tWHEN ", .string sort_by),
             (" = 'rows_updated' THEN rows_updated\n  \tWHEN ", .string sort_by),
             (" = 'rows_deleted' THEN rows_deleted\n  \tELSE total_latency_secs\n  END DESC\nLIMIT ",
               .int limit) ],
           ";\n") := by
  refine ⟨?_, rfl, statementHead_ends_with_guard, ?_⟩
  · rw [countPlaceholders_statement]; rfl
  · unfold bindPositional
    simp only [splitPlaceholders_statement]
    rfl

/-! ## The sort key -/

theorem orderByCase_binaryEq (k : String) :
    orderByCase binaryEq k k k k k =
      if k ∈ permittedSortKeys then k else "total_latency_secs" := by
  unfold orderByCase permittedSortKeys binaryEq
  by_cases h1 : k = "row_count"
  · subst h1; decide
  by_cases h2 : k = "rows_fetched"
  · subst h2; decide
  by_cases h3 : k = "rows_inserted"
  · subst h3; decide
  by_cases h4 : k = "rows_updated"
  · subst h4; decide
  by_cases h5 : k = "rows_deleted"
  · subst h5; decide
  simp [h1, h2, h3, h4, h5]

theorem orderByCase_none_equal (sqlEq : String → String → Bool) (k : String)
    (h : ∀ key ∈ permittedSortKeys, sqlEq k key = false) :
    orderByCase sqlEq k k k k k = "total_latency_secs" := by
  unfold orderByCase
  simp [h "row_count" (by decide), h "rows_fetched" (by decide),
    h "rows_inserted" (by decide), h "rows_updated" (by decide),
    h "rows_deleted" (by decide)]

theorem orderByCase_one_equal (sqlEq : String → String → Bool) (k key : String)
    (hkey : key ∈ permittedSortKeys) (heq : sqlEq k key = true)
    (hne : ∀ other ∈ permittedSortKeys, other ≠ key → sqlEq k other = false) :
    orderByCase sqlEq k k k k k = key := by
  unfold permittedSortKeys at hkey
  simp only [List.mem_cons, List.mem_singleton, List.not_mem_nil, or_false] at hkey
  unfold orderByCase
  rcases hkey with rfl | rfl | rfl | rfl | rfl
  · simp [heq]
  · simp [heq, hne "row_count" (by decide) (by decide)]
  · simp [heq, hne "row_count" (by decide) (by decide),
      hne "rows_fetched" (by decide) (by decide)]
  · simp [heq, hne "row_count" (by decide) (by decide),
      hne "rows_fetched" (by decide) (by decide), hne "rows_inserted" (by decide) (by decide)]
  · simp [heq, hne "row_count" (by decide) (by decide),
      hne "rows_fetched" (by decide) (by decide), hne "rows_inserted" (by decide) (by decide),
      hne "rows_updated" (by decide) (by decide)]

/-- C3 as stated fails: `ROW_COUNT` is a string and none of the five permitted
keys, Invoke hands it to RunSQL as it is, and under a comparison that takes no
account of case the first WHEN of the CASE holds, so that the ordering column is
row_count and not the one of the ELSE branch. -/
theorem upper_case_sort_key_counterexample :
    "ROW_COUNT" ∉ permittedSortKeys
      ∧ (exampleTool.Invoke loggingContext recordingProvider upperCaseSortParams noToken
          []).events.filter Event.isRunSQL =
        [.RunSQL listTableStatsStatement (sliceParams "" "" "ROW_COUNT" 10)]
      ∧ orderingOfCall caseInsensitiveEq (sliceParams "" "" "ROW_COUNT" 10) = some "row_count"
      ∧ orderingOfCall caseInsensitiveEq (sliceParams "" "" "ROW_COUNT" 10) ≠
        some "total_latency_secs" := by
  refine ⟨by decide, ?_, by decide, by decide⟩
  rw [Invoke_reaches_RunSQL exampleTool loggingContext recordingProvider upperCaseSortParams
    noToken [] recordingSource ⟨0⟩ "" "" "ROW_COUNT" 10
    rfl (by decide) (by decide) (by decide) (by decide) rfl]
  rfl

/-- C3, amended: whatever string the sort key is, Invoke raises no error over it:
the call goes to RunSQL with the key bound unchanged to the five placeholders of
the CASE, and the pair RunSQL returns comes back. Whatever comparison the server
makes for `=`: a key it finds equal to none of the five literals row_count,
rows_fetched, rows_inserted, rows_updated, rows_deleted selects the ELSE branch,
total_latency_secs; a key it finds equal to one of the five literals and to no
other selects the column of that name. Under exact comparison the ELSE branch is
selected by every string outside the five keys, the empty string among them, and
each of the five keys selects the column of its name; the latter also holds under
the comparison without case. -/
theorem sort_key_fails_open {E : ToolsPkg} {σ : Type}
    (t : Tool E) (ctx : Context) (resourceMgr : SourceProvider σ) (params : ParamValues)
    (tok : AccessToken) (w : σ) (source : compatibleSource σ) (logger : Logger)
    (s n k : String) (l : Int) (sqlEq : String → String → Bool)
    (hsrc : resourceMgr.GetCompatibleSource t.Source t.Name t.Type_ = .ok source)
    (hs : params.AsMap.index "table_schema" = .string s)
    (hn : params.AsMap.index "table_name" = .string n)
    (hk : params.AsMap.index "sort_by" = .string k)
    (hl : params.AsMap.index "limit" = .int l)
    (hlog : ctx.LoggerFromContext = .ok logger) :
    ((t.Invoke ctx resourceMgr params tok w).result,
        (t.Invoke ctx resourceMgr params tok w).err) =
        (source.RunSQL ctx listTableStatsStatement (sliceParams s n k l) w).1
      ∧ (t.Invoke ctx resourceMgr params tok w).events.filter Event.isRunSQL =
        [.RunSQL listTableStatsStatement (sliceParams s n k l)]
      ∧ orderingOfCall sqlEq (sliceParams s n k l) = some (orderByCase sqlEq k k k k k)
      ∧ ((∀ key ∈ permittedSortKeys, sqlEq k key = false) →
          orderByCase sqlEq k k k k k = "total_latency_secs")
      ∧ (∀ key ∈ permittedSortKeys, sqlEq k key = true →
          (∀ other ∈ permittedSortKeys, other ≠ key → sqlEq k other = false) →
          orderByCase sqlEq k k k k k = key)
      ∧ (k ∉ permittedSortKeys → orderByCase binaryEq k k k k k = "total_latency_secs")
      ∧ (k ∈ permittedSortKeys → orderByCase binaryEq k k k k k = k)
      ∧ orderByCase binaryEq "" "" "" "" "" = "total_latency_secs"
      ∧ (∀ key ∈ permittedSortKeys, orderByCase caseInsensitiveEq key key key key key = key) := by
  rw [Invoke_reaches_RunSQL t ctx resourceMgr params tok w source logger s n k l
    hsrc hs hn hk hl hlog]
  refine ⟨rfl, rfl, rfl, orderByCase_none_equal sqlEq k,
    fun key hkey heq hne => orderByCase_one_equal sqlEq k key hkey heq hne,
    ?_, ?_, by decide, by decide⟩
  · intro h; rw [orderByCase_binaryEq, if_neg h]
  · intro h; rw [orderByCase_binaryEq, if_pos h]

/-- C3, amended, at the sort key `size_MB`, a column of the result that the CASE
does not name, under the comparison without case: the call is made, no literal
compares equal and the ordering is the default one. -/
theorem sort_key_fails_open_witness :
    (∀ key ∈ permittedSortKeys, caseInsensitiveEq "size_MB" key = false)
      ∧ ((exampleTool.Invoke loggingContext recordingProvider unknownSortParams noToken
            []).result,
          (exampleTool.Invoke loggingContext recordingProvider unknownSortParams noToken
            []).err) = (GoAny.foreign 1, none)
      ∧ orderingOfCall caseInsensitiveEq (sliceParams "shop" "" "size_MB" 10) =
        some (orderByCase caseInsensitiveEq "size_MB" "size_MB" "size_MB" "size_MB" "size_MB")
      ∧ orderByCase caseInsensitiveEq "size_MB" "size_MB" "size_MB" "size_MB" "size_MB" =
        "total_latency_secs" :=
  have h := sort_key_fails_open exampleTool loggingContext recordingProvider unknownSortParams
    noToken [] recordingSource ⟨0⟩ "shop" "" "size_MB" 10 caseInsensitiveEq
    rfl (by decide) (by decide) (by decide) (by decide) rfl
  ⟨by decide, h.1, h.2.2.1, h.2.2.2.1 (by decide)⟩

/-! ## Validation of the parameters -/

theorem index_string_of_wellTyped (m : GoMap) (name : String) (hname : name ≠ "limit")
    (h : wellTyped m name = true) : ∃ s, m.index name = .string s := by
  unfold wellTyped at h
  unfold GoMap.index
  cases hv : List.lookup name m with
  | none => simp [hv] at h
  | some v => cases v <;> simp_all

theorem index_int_of_wellTyped (m : GoMap) (h : wellTyped m "limit" = true) :
    ∃ l, m.index "limit" = .int l := by
  unfold wellTyped at h
  unfold GoMap.index
  cases hv : List.lookup "limit" m with
  | none => simp [hv] at h
  | some v => cases v <;> simp_all

theorem index_not_string_of_not_wellTyped (m : GoMap) (name : String) (hname : name ≠ "limit")
    (h : wellTyped m name = false) (s : String) : m.index name ≠ .string s := by
  unfold wellTyped at h
  unfold GoMap.index
  cases hv : List.lookup name m with
  | none => simp
  | some v => cases v <;> simp_all

theorem index_not_int_of_not_wellTyped (m : GoMap) (h : wellTyped m "limit" = false) (l : Int) :
    m.index "limit" ≠ .int l := by
  unfold wellTyped at h
  unfold GoMap.index
  cases hv : List.lookup "limit" m with
  | none => simp
  | some v => cases v <;> simp_all

theorem Invoke_bad_table_schema {E : ToolsPkg} {σ : Type} (t : Tool E) (ctx : Context)
    (resourceMgr : SourceProvider σ) (params : ParamValues) (tok : AccessToken) (w : σ)
    (source : compatibleSource σ)
    (hsrc : resourceMgr.GetCompatibleSource t.Source t.Name t.Type_ = .ok source)
    (hs : ∀ s, params.AsMap.index "table_schema" ≠ .string s) :
    t.Invoke ctx resourceMgr params tok w =
      ⟨.nil, some (.Errorf "invalid 'table_schema' parameter; expected a string"), [], w⟩ := by
  unfold Tool.Invoke
  simp only [hsrc]

theorem Invoke_bad_table_name {E : ToolsPkg} {σ : Type} (t : Tool E) (ctx : Context)
    (resourceMgr : SourceProvider σ) (params : ParamValues) (tok : AccessToken) (w : σ)
    (source : compatibleSource σ) (s : String)
    (hsrc : resourceMgr.GetCompatibleSource t.Source t.Name t.Type_ = .ok source)
    (hs : params.AsMap.index "table_schema" = .string s)
    (hn : ∀ n, params.AsMap.index "table_name" ≠ .string n) :
    t.Invoke ctx resourceMgr params tok w =
      ⟨.nil, some (.Errorf "invalid 'table_name' parameter; expected a string"), [], w⟩ := by
  unfold Tool.Invoke
  simp only [hsrc, hs]

theorem Invoke_bad_sort_by {E : ToolsPkg} {σ : Type} (t : Tool E) (ctx : Context)
    (resourceMgr : SourceProvider σ) (params : ParamValues) (tok : AccessToken) (w : σ)
    (source : compatibleSource σ) (s n : String)
    (hsrc : resourceMgr.GetCompatibleSource t.Source t.Name t.Type_ = .ok source)
    (hs : params.AsMap.index "table_schema" = .string s)
    (hn : params.AsMap.index "table_name" = .string n)
    (hk : ∀ k, params.AsMap.index "sort_by" ≠ .string k) :
    t.Invoke ctx resourceMgr params tok w =
      ⟨.nil, some (.Errorf "invalid 'sort_by' parameter; expected a string"), [], w⟩ := by
  unfold Tool.Invoke
  simp only [hsrc, hs, hn]

theorem Invoke_bad_limit {E : ToolsPkg} {σ : Type} (t : Tool E) (ctx : Context)
    (resourceMgr : SourceProvider σ) (params : ParamValues) (tok : AccessToken) (w : σ)
    (source : compatibleSource σ) (s n k : String)
    (hsrc : resourceMgr.GetCompatibleSource t.Source t.Name t.Type_ = .ok source)
    (hs : params.AsMap.index "table_schema" = .string s)
    (hn : params.AsMap.index "table_name" = .string n)
    (hk : params.AsMap.index "sort_by" = .string k)
    (hl : ∀ l, params.AsMap.index "limit" ≠ .int l) :
    t.Invoke ctx resourceMgr params tok w =
      ⟨.nil, some (.Errorf "invalid 'limit' parameter; expected an integer"), [], w⟩ := by
  unfold Tool.Invoke
  simp only [hsrc, hs, hn, hk]

theorem Invoke_no_logger {E : ToolsPkg} {σ : Type} (t : Tool E) (ctx : Context)
    (resourceMgr : SourceProvider σ) (params : ParamValues) (tok : AccessToken) (w : σ)
    (source : compatibleSource σ) (s n k : String) (l : Int) (e : GoError)
    (hsrc : resourceMgr.GetCompatibleSource t.Source t.Name t.Type_ = .ok source)
    (hs : params.AsMap.index "table_schema" = .string s)
    (hn : params.AsMap.index "table_name" = .string n)
    (hk : params.AsMap.index "sort_by" = .string k)
    (hl : params.AsMap.index "limit" = .int l)
    (hlog : ctx.LoggerFromContext = .error e) :
    t.Invoke ctx resourceMgr params tok w =
      ⟨.nil, some (.Errorf ("error getting logger: " ++ e.Error)), [], w⟩ := by
  simp only [Tool.Invoke, hsrc, hs, hn, hk, hl, hlog]

theorem logger_error_ne_validationError (msg name : String) :
    GoError.Errorf ("error getting logger: " ++ msg) ≠ validationError name := by
  unfold validationError
  intro h
  injection h with h
  have h' := congrArg String.data h
  simp only [String.data_append] at h'
  have h'' := congrArg List.head? h'
  simp at h''

theorem firstOffending_cases (m : GoMap) :
    firstOffending m =
      if wellTyped m "table_schema" = false then some "table_schema"
      else if wellTyped m "table_name" = false then some "table_name"
      else if wellTyped m "sort_by" = false then some "sort_by"
      else if wellTyped m "limit" = false then some "limit"
      else none := by
  unfold firstOffending
  simp only [List.find?]
  cases wellTyped m "table_schema" <;> cases wellTyped m "table_name" <;>
    cases wellTyped m "sort_by" <;> cases wellTyped m "limit" <;> rfl

/-- C10: Invoke fills in no default. Once the source has resolved, if one of
table_schema, table_name, sort_by is absent from the map or not a string, or limit
is absent or not an int, Invoke returns a nil result and the error that names the
first such parameter in the order table_schema, table_name, sort_by, limit,
without a call of RunSQL and without a change of the world. When all four are
present and well-typed none of these four errors is raised: Invoke either stops at
a missing logger, with an error that is none of the four, or calls RunSQL once and
returns its answer. -/
theorem Invoke_validates_in_order_without_defaults {E : ToolsPkg} {σ : Type}
    (t : Tool E) (ctx : Context) (resourceMgr : SourceProvider σ) (params : ParamValues)
    (tok : AccessToken) (w : σ) (source : compatibleSource σ)
    (hsrc : resourceMgr.GetCompatibleSource t.Source t.Name t.Type_ = .ok source) :
    (∀ name, firstOffending params.AsMap = some name →
        t.Invoke ctx resourceMgr params tok w = ⟨.nil, some (validationError name), [], w⟩)
      ∧ (firstOffending params.AsMap = none →
        (∃ e, ctx.LoggerFromContext = .error e ∧
            t.Invoke ctx resourceMgr params tok w =
              ⟨.nil, some (.Errorf ("error getting logger: " ++ e.Error)), [], w⟩ ∧
            ∀ name, GoError.Errorf ("error getting logger: " ++ e.Error) ≠ validationError name)
        ∨ (∃ logger s n k l, ctx.LoggerFromContext = .ok logger ∧
            params.AsMap.index "table_schema" = .string s ∧
            params.AsMap.index "table_name" = .string n ∧
            params.AsMap.index "sort_by" = .string k ∧
            params.AsMap.index "limit" = .int l ∧
            t.Invoke ctx resourceMgr params tok w =
              ⟨(source.RunSQL ctx listTableStatsStatement (sliceParams s n k l) w).1.1,
               (source.RunSQL ctx listTableStatsStatement (sliceParams s n k l) w).1.2,
               [.DebugContext logger debugMessage,
                .RunSQL listTableStatsStatement (sliceParams s n k l)],
               (source.RunSQL ctx listTableStatsStatement (sliceParams s n k l) w).2⟩))
      ∧ validationError "table_schema" =
          .Errorf "invalid 'table_schema' parameter; expected a string"
      ∧ validationError "table_name" =
          .Errorf "invalid 'table_name' parameter; expected a string"
      ∧ validationError "sort_by" = .Errorf "invalid 'sort_by' parameter; expected a string"
      ∧ validationError "limit" = .Errorf "invalid 'limit' parameter; expected an integer" := by
  refine ⟨?_, ?_, by decide, by decide, by decide, by decide⟩
  · intro name hname
    rw [firstOffending_cases] at hname
    by_cases h1 : wellTyped params.AsMap "table_schema" = false
    · rw [if_pos h1] at hname
      obtain rfl := Option.some.inj hname
      exact Invoke_bad_table_schema t ctx resourceMgr params tok w source hsrc
        (index_not_string_of_not_wellTyped _ _ (by decide) h1)
    rw [if_neg h1] at hname
    obtain ⟨s, hs⟩ := index_string_of_wellTyped params.AsMap "table_schema" (by decide)
      (by simpa using h1)
    by_cases h2 : wellTyped params.AsMap "table_name" = false
    · rw [if_pos h2] at hname
      obtain rfl := Option.some.inj hname
      exact Invoke_bad_table_name t ctx resourceMgr params tok w source s hsrc hs
        (index_not_string_of_not_wellTyped _ _ (by decide) h2)
    rw [if_neg h2] at hname
    obtain ⟨n, hn⟩ := index_string_of_wellTyped params.AsMap "table_name" (by decide)
      (by simpa using h2)
    by_cases h3 : wellTyped params.AsMap "sort_by" = false
    · rw [if_pos h3] at hname
      obtain rfl := Option.some.inj hname
      exact Invoke_bad_sort_by t ctx resourceMgr params tok w source s n hsrc hs hn
        (index_not_string_of_not_wellTyped _ _ (by decide) h3)
    rw [if_neg h3] at hname
    obtain ⟨k, hk⟩ := index_string_of_wellTyped params.AsMap "sort_by" (by decide)
      (by simpa using h3)
    by_cases h4 : wellTyped params.AsMap "limit" = false
    · rw [if_pos h4] at hname
      obtain rfl := Option.some.inj hname
      exact Invoke_bad_limit t ctx resourceMgr params tok w source s n k hsrc hs hn hk
        (index_not_int_of_not_wellTyped _ h4)
    rw [if_neg h4] at hname
    exact absurd hname (by simp)
  · intro hnone
    rw [firstOffending_cases] at hnone
    by_cases h1 : wellTyped params.AsMap "table_schema" = false
    · rw [if_pos h1] at hnone; exact absurd hnone (by simp)
    rw [if_neg h1] at hnone
    by_cases h2 : wellTyped params.AsMap "table_name" = false
    · rw [if_pos h2] at hnone; exact absurd hnone (by simp)
    rw [if_neg h2] at hnone
    by_cases h3 : wellTyped params.AsMap "sort_by" = false
    · rw [if_pos h3] at hnone; exact absurd hnone (by simp)
    rw [if_neg h3] at hnone
    by_cases h4 : wellTyped params.AsMap "limit" = false
    · rw [if_pos h4] at hnone; exact absurd hnone (by simp)
    obtain ⟨s, hs⟩ := index_string_of_wellTyped params.AsMap "table_schema" (by decide)
      (by simpa using h1)
    obtain ⟨n, hn⟩ := index_string_of_wellTyped params.AsMap "table_name" (by decide)
      (by simpa using h2)
    obtain ⟨k, hk⟩ := index_string_of_wellTyped params.AsMap "sort_by" (by decide)
      (by simpa using h3)
    obtain ⟨l, hl⟩ := index_int_of_wellTyped params.AsMap (by simpa using h4)
    cases hlog : ctx.LoggerFromContext with
    | error e =>
      exact Or.inl ⟨e, rfl,
        Invoke_no_logger t ctx resourceMgr params tok w source s n k l e hsrc hs hn hk hl hlog,
        fun name => logger_error_ne_validationError e.Error name⟩
    | ok logger =>
      exact Or.inr ⟨logger, s, n, k, l, rfl, hs, hn, hk, hl,
        Invoke_reaches_RunSQL t ctx resourceMgr params tok w source logger s n k l
          hsrc hs hn hk hl hlog⟩

/-- C10 at parameters without table_name and sort_by: the default of table_name is
not filled in, the error names table_name, the first of the two, and no call is
made. -/
theorem Invoke_validates_in_order_witness :
    firstOffending partialParams.AsMap = some "table_name"
      ∧ (exampleTool.Invoke loggingContext recordingProvider partialParams noToken []).result
        = .nil
      ∧ (exampleTool.Invoke loggingContext recordingProvider partialParams noToken []).err =
        some (.Errorf "invalid 'table_name' parameter; expected a string")
      ∧ (exampleTool.Invoke loggingContext recordingProvider partialParams noToken []).events
        = [] :=
  have h := (Invoke_validates_in_order_without_defaults exampleTool loggingContext
    recordingProvider partialParams noToken [] recordingSource rfl).1 "table_name" (by decide)
  ⟨by decide, congrArg Outcome.result h, congrArg Outcome.err h, congrArg Outcome.events h⟩

/-- C4 as stated fails when the source does not resolve: with three string
parameters and a string limit, against a provider that knows no source, Invoke
returns the provider's error, not the error on limit. -/
theorem string_limit_unresolved_source_counterexample :
    stringLimitParams.AsMap.index "table_schema" = .string ""
      ∧ stringLimitParams.AsMap.index "table_name" = .string ""
      ∧ stringLimitParams.AsMap.index "sort_by" = .string "row_count"
      ∧ stringLimitParams.AsMap.index "limit" = .string "5"
      ∧ (exampleTool.Invoke loggingContext emptyProvider stringLimitParams noToken []).err =
        some (.foreign 404 "unable to retrieve source my-mysql")
      ∧ (exampleTool.Invoke loggingContext emptyProvider stringLimitParams noToken []).err ≠
        some (.Errorf "invalid 'limit' parameter; expected an integer") := by
  refine ⟨by decide, by decide, by decide, by decide, ?_, ?_⟩
  · rw [Invoke_source_error exampleTool loggingContext emptyProvider stringLimitParams noToken []
      (.foreign 404 ("unable to retrieve source " ++ "my-mysql")) rfl]
    decide
  · rw [Invoke_source_error exampleTool loggingContext emptyProvider stringLimitParams noToken []
      (.foreign 404 ("unable to retrieve source " ++ "my-mysql")) rfl]
    decide

/-- C4, amended: when table_schema, table_name and sort_by are strings and limit is
a string, RunSQL is never called and the world is left as it was; if the source
resolves, Invoke returns a nil result and the error
"invalid 'limit' parameter; expected an integer"; if the source does not resolve,
it returns the error of the resolution. -/
theorem string_limit_fails_before_any_source_call {E : ToolsPkg} {σ : Type}
    (t : Tool E) (ctx : Context) (resourceMgr : SourceProvider σ) (params : ParamValues)
    (tok : AccessToken) (w : σ) (s n k v : String)
    (hs : params.AsMap.index "table_schema" = .string s)
    (hn : params.AsMap.index "table_name" = .string n)
    (hk : params.AsMap.index "sort_by" = .string k)
    (hl : params.AsMap.index "limit" = .string v) :
    (t.Invoke ctx resourceMgr params tok w).events = []
      ∧ (t.Invoke ctx resourceMgr params tok w).world = w
      ∧ (t.Invoke ctx resourceMgr params tok w).result = .nil
      ∧ (∀ source, resourceMgr.GetCompatibleSource t.Source t.Name t.Type_ = .ok source →
          (t.Invoke ctx resourceMgr params tok w).err =
            some (.Errorf "invalid 'limit' parameter; expected an integer"))
      ∧ (∀ e, resourceMgr.GetCompatibleSource t.Source t.Name t.Type_ = .error e →
          (t.Invoke ctx resourceMgr params tok w).err = some e) := by
  cases hsrc : resourceMgr.GetCompatibleSource t.Source t.Name t.Type_ with
  | error e =>
    rw [Invoke_source_error t ctx resourceMgr params tok w e hsrc]
    exact ⟨rfl, rfl, rfl, fun _ h => (by cases h), fun e' h => (by cases h; rfl)⟩
  | ok source =>
    rw [Invoke_bad_limit t ctx resourceMgr params tok w source s n k hsrc hs hn hk
      (fun l h => by rw [hl] at h; cases h)]
    exact ⟨rfl, rfl, rfl, fun _ _ => rfl, fun e' h => (by cases h)⟩

/-- C4, amended, at a string limit against a source that resolves: the error is the
one on limit and the recording source has seen no call. -/
theorem string_limit_fails_witness :
    (exampleTool.Invoke loggingContext recordingProvider stringLimitParams noToken []).events
        = []
      ∧ (exampleTool.Invoke loggingContext recordingProvider stringLimitParams noToken []).world
        = []
      ∧ (exampleTool.Invoke loggingContext recordingProvider stringLimitParams noToken []).err =
        some (.Errorf "invalid 'limit' parameter; expected an integer") :=
  have h := string_limit_fails_before_any_source_call exampleTool loggingContext
    recordingProvider stringLimitParams noToken [] "" "" "row_count" "5"
    (by decide) (by decide) (by decide) (by decide)
  ⟨h.1, h.2.1, h.2.2.2.1 recordingSource rfl⟩

/-! ## Authorization -/

/-- C5: Authorized is true exactly when the tool requires no auth service or some
service it requires is among the verified ones. With `oauth` required:
Authorized of nothing is false, of `oauth` true, of `other` false. -/
theorem Authorized_iff_none_required_or_one_verified {E : ToolsPkg} (t : Tool E)
    (verifiedAuthServices : List String) :
    (t.Authorized verifiedAuthServices = true ↔
        (t.AuthRequired = [] ∨ ∃ a, a ∈ t.AuthRequired ∧ a ∈ verifiedAuthServices))
      ∧ exampleTool.AuthRequired = ["oauth"]
      ∧ exampleTool.Authorized [] = false
      ∧ exampleTool.Authorized ["oauth"] = true
      ∧ exampleTool.Authorized ["other"] = false := by
  refine ⟨?_, rfl, by decide, by decide, by decide⟩
  unfold Tool.Authorized IsAuthorized
  cases hreq : t.AuthRequired with
  | nil => simp
  | cons a as => simp [List.any_eq_true]

/-! ## Construction, parameters and manifests -/

/-- C7: for every configuration and every source map Initialize succeeds, and
GetParameters of the tool is the list of four descriptors table_schema,
table_name, sort_by, limit in this order, the first three built as string
parameters with default "", the fourth as an integer parameter with default 10;
two configurations give the same parameters. -/
theorem Initialize_succeeds_with_four_parameters (E : ToolsPkg) {S : Type}
    (cfg cfg' : Config) (srcs srcs' : List (String × S)) :
    ∃ t t', Config.Initialize E cfg srcs = .ok t
      ∧ Config.Initialize E cfg' srcs' = .ok t'
      ∧ t.GetParameters =
        [ .NewStringParameterWithDefault "table_schema" ""
            "(Optional) The database where statistics  is to be executed. Check all tables visible to the current user if not specified",
          .NewStringParameterWithDefault "table_name" ""
            "(Optional) Name of the table to be checked. Check all tables visible to the current user if not specified.",
          .NewStringParameterWithDefault "sort_by" "" "(Optional) The column to sort by",
          .NewIntParameterWithDefault "limit" 10 "(Optional) Max rows to return, default is 10" ]
      ∧ t.GetParameters.length = 4
      ∧ t.GetParameters.map Parameter.name = ["table_schema", "table_name", "sort_by", "limit"]
      ∧ t.GetParameters.map Parameter.isString = [true, true, true, false]
      ∧ t.GetParameters.map Parameter.isInt = [false, false, false, true]
      ∧ t.GetParameters.map Parameter.defaultValue =
        [.string "", .string "", .string "", .int 10]
      ∧ t'.GetParameters = t.GetParameters :=
  ⟨_, _, rfl, rfl, rfl, rfl, rfl, rfl, rfl, rfl, rfl⟩

/-- C8: the manifests of a tool built by Initialize are the values computed at
construction: Manifest returns the stored manifest, whose Description and
AuthRequired are those of the configuration, McpManifest returns the stored result
of GetMcpManifest, and a second call of either returns the same value as the
first. -/
theorem Manifest_is_the_one_built_at_construction (E : ToolsPkg) {S : Type}
    (cfg : Config) (srcs : List (String × S)) :
    ∃ t, Config.Initialize E cfg srcs = .ok t
      ∧ t.Manifest =
        ⟨cfg.Description, E.ParametersManifest allParameters, cfg.AuthRequired⟩
      ∧ t.McpManifest =
        E.GetMcpManifest cfg.Name cfg.Description cfg.AuthRequired allParameters
      ∧ t.Manifest.Description = cfg.Description
      ∧ t.Manifest.AuthRequired = cfg.AuthRequired
      ∧ (t.Manifest, t.Manifest).1 = (t.Manifest, t.Manifest).2
      ∧ (t.McpManifest, t.McpManifest).1 = (t.McpManifest, t.McpManifest).2
      ∧ t.ToConfig = cfg :=
  ⟨_, rfl, rfl, rfl, rfl, rfl, rfl, rfl, rfl⟩

end mysqllisttablestats
